import Mathlib

/-!
Verification of the go-monitoring swap-quote monitor.

This file gives a shallow embedding of the parts of the repository that the
verified properties are about: the provider response validators
(`providers/*_handler.go`), the Balancer SOR decimal conversion
(`convertFromDecimalAmount`), the dashboard amount comparison
(`handlers/dashboard.go`), the provider registry's check orchestration
(`internal/monitor`), the endpoint store (`internal/collector`), the HTTP
check handler, and the on-chain price query dispatch
(`providers/balancer_onchain.go`).

Conventions used throughout:
* Go `struct` types become Lean structures keeping the Go field names
  (lower-cased first letter).  JSON-tagged fields that a handler never reads
  are omitted from the embedded struct and noted in a comment.
* `json.Unmarshal` either fails or yields a value of the struct type, so a
  handler's raw-body input is embedded as `Option R` (`none` = unparsable
  body); quantifying over all `R` values covers all parsable bodies.
* A Go method that mutates `*Endpoint` and returns `error` becomes a function
  `... → Endpoint × Option String`: the updated endpoint paired with `none`
  on success (`return nil`) or `some msg` on failure, `msg` being the
  `fmt.Errorf` text with the computable parts of the format applied.
* Environment lookup (`os.Getenv`), the network (`eth_call`), and the
  generic HTTP client are external effects: they enter as explicit function
  parameters, so theorems quantify over every possible behaviour of the
  outside world.
* `time.Now()` is modelled by an explicit `now : Nat` parameter written into
  `lastChecked`.
-/

/-- Go `strings.Contains s substr` : substring containment on the raw bytes
(here: character lists). -/
def goStringContains (s pat : String) : Bool :=
  (List.range (s.data.length + 1)).any (fun i => pat.data.isPrefixOf (s.data.drop i))

/-- `collector.Endpoint` (internal/collector, extended with the fields used by
`providers/balancer_onchain.go` and the market-price check: `MarketPrice`,
`SwapPathPools`, `SwapPathTokenOut`, `SwapPathIsBuffer`).  `Delay`
(a `time.Duration` only used for sleeping) is omitted; `LastChecked`
(`time.Time`) is modelled as an abstract tick. -/
structure Endpoint where
  name : String
  baseName : String
  solverName : String
  routeSolver : String
  network : String
  tokenIn : String
  tokenOut : String
  tokenInDecimals : Nat
  tokenOutDecimals : Nat
  swapAmount : String
  expectedPool : String
  expectedNoHops : Nat
  lastStatus : String
  lastChecked : Nat
  message : String
  returnAmount : String
  marketPrice : String
  swapPathPools : List String
  swapPathTokenOut : List String
  swapPathIsBuffer : List Bool
deriving Repr, DecidableEq

/-- The `handleError` helper that every provider handler file repeats
verbatim: set `LastStatus` and `Message` on the endpoint (the `fmt.Printf`
log line and `notifications.SendEmail` side effects are external
collaborators, outside the embedding). -/
def handleError (e : Endpoint) (status message : String) : Endpoint :=
  { e with lastStatus := status, message := message }

/-! ## KyberSwap handler (`providers/kyberswap_handler.go`) -/

/-- `KyberSwapRouteItem` (fields the handler reads; `tokenIn`, `tokenOut`,
`swapAmount`, `amountOut`, `poolType` are carried but never inspected, so we
keep just `pool` and `exchange`). -/
structure KyberSwapRouteItem where
  pool : String
  exchange : String
deriving Repr, DecidableEq

/-- `KyberSwapResponse` restricted to the fields `HandleResponse` reads:
`code`, `message`, `requestId`, and inside `data.routeSummary` the
`amountOut`, `routeID` and `route` fields (the gas/fee/token fields are
never inspected). -/
structure KyberSwapResponse where
  code : Int
  message : String
  requestId : String
  amountOut : String
  routeID : String
  route : List (List KyberSwapRouteItem)
deriving Repr, DecidableEq

/-- The `switch`/`strings.Contains` chain of
`KyberSwapHandler.HandleResponse` that picks the expected liquidity source
from the endpoint name (`none` = the default branch, "unsupported pool
type"). -/
def kyberswapExpectedSource (name : String) : Option String :=
  if goStringContains name "Quant" then some "balancer-v3-quantamm"
  else if goStringContains name "Stable" then some "balancer-v3-stable"
  else if goStringContains name "Gyro" then some "balancer-v3-eclp"
  else none

/-- `KyberSwapHandler.HandleResponse`.  The nested route loop collects every
item's `Exchange` in order (`foundExchanges`), checks the expected pool and
the expected source by membership, and finally errors at the first exchange
that differs from the expected source.  Note that on success the function
returns `nil` WITHOUT writing `endpoint.ReturnAmount`. -/
def kyberswapHandleResponse (result : Option KyberSwapResponse) (e : Endpoint) :
    Endpoint × Option String :=
  match result with
  | none => (handleError e "down" "Error parsing JSON", some "error parsing JSON")
  | some r =>
    if r.code ≠ 0 then
      let msg := "kyberswap API error: " ++ r.message ++ " (code: " ++ toString r.code ++
        ", requestId: " ++ r.requestId ++ ")"
      (handleError e "down" msg, some msg)
    else if r.amountOut = "" then
      (handleError e "down" "no amountOut in route summary", some "no amountOut in route summary")
    else if r.amountOut = "0" then
      (handleError e "down" "amountOut is 0", some "amountOut is 0")
    else if r.routeID = "" then
      (handleError e "down" "no route ID in response", some "no route ID in response")
    else
      match kyberswapExpectedSource e.name with
      | none =>
        (handleError e "down" "unsupported pool type for validation",
          some "unsupported pool type for validation")
      | some expectedSource =>
        let items := r.route.flatten
        let foundExchanges := items.map (·.exchange)
        let foundExpectedPool := items.any (fun it => it.pool = e.expectedPool)
        let foundExpectedSource := items.any (fun it => it.exchange = expectedSource)
        if ¬ foundExpectedPool then
          let msg := "expected pool " ++ e.expectedPool ++ " not found in route"
          (handleError e "down" msg, some msg)
        else if ¬ foundExpectedSource then
          let msg := "expected source " ++ expectedSource ++ " not found in route"
          (handleError e "down" msg, some msg)
        else
          match foundExchanges.find? (fun x => x ≠ expectedSource) with
          | some ex =>
            let msg := "unexpected source found in route: " ++ ex ++
              ". Expected: " ++ expectedSource
            (handleError e "down" msg, some msg)
          | none => (e, none)

/-! ## Paraswap handler (`providers/paraswap_handler.go`) -/

/-- One entry of `priceRoute.bestRoute[].swaps[].swapExchanges[]`. -/
structure ParaswapSwapExchange where
  exchange : String
  poolAddresses : List String
deriving Repr, DecidableEq

/-- One entry of `priceRoute.bestRoute[].swaps[]`. -/
structure ParaswapSwap where
  swapExchanges : List ParaswapSwapExchange
deriving Repr, DecidableEq

/-- One entry of `priceRoute.bestRoute[]`. -/
structure ParaswapRoute where
  swaps : List ParaswapSwap
deriving Repr, DecidableEq

/-- `ParaswapResponse` (`error`, `priceRoute.destAmount`,
`priceRoute.bestRoute`). -/
structure ParaswapResponse where
  error : String
  destAmount : String
  bestRoute : List ParaswapRoute
deriving Repr, DecidableEq

/-- The raw body of a Paraswap response as far as `HandleResponse`
distinguishes it: the exact no-routes literal
(the byte string `\x7b"error":"No routes found with enough liquidity"\x7d`),
an unparsable body, or a parsed `ParaswapResponse`. -/
inductive ParaswapBody where
  | noRoutesLiteral : ParaswapBody
  | unparsable : ParaswapBody
  | parsed : ParaswapResponse → ParaswapBody
deriving Repr, DecidableEq

/-- All exchanges appearing in a Paraswap best route, in nesting order. -/
def paraswapRouteExchanges (r : ParaswapResponse) : List String :=
  (r.bestRoute.map (fun route =>
    (route.swaps.map (fun swap => swap.swapExchanges.map (·.exchange))).flatten)).flatten

/-- `ParaswapHandler.HandleResponse`.  After the error checks it only
requires that SOME swap exchange equals `"BalancerV3"` (the nested loop sets
`foundBalancerV3` and `break`s the innermost loop only); it never inspects
`ExpectedPool` or the other exchanges.  On success it writes `DestAmount`
into `ReturnAmount` when non-empty. -/
def paraswapHandleResponse (body : ParaswapBody) (e : Endpoint) :
    Endpoint × Option String :=
  match body with
  | .noRoutesLiteral =>
    (handleError e "down" "No routes found with enough liquidity",
      some "no routes found with enough liquidity")
  | .unparsable =>
    (handleError e "down" "Error parsing JSON", some "error parsing JSON")
  | .parsed r =>
    if r.error ≠ "" then
      (handleError e "down" ("API error: " ++ r.error), some ("API error: " ++ r.error))
    else if r.bestRoute.length = 0 then
      (handleError e "down" "No best route found", some "no best route found")
    else
      let foundBalancerV3 := r.bestRoute.any (fun route =>
        route.swaps.any (fun swap =>
          swap.swapExchanges.any (fun ex => ex.exchange = "BalancerV3")))
      if ¬ foundBalancerV3 then
        -- the Go code first sets endpoint.Message and then handleError with
        -- the same message, so the net state update is one handleError
        (handleError e "down" "Route does not use Balancer V3",
          some "route does not use Balancer V3")
      else
        let e := if r.destAmount ≠ "" then { e with returnAmount := r.destAmount } else e
        (e, none)

/-! ## 0x handler (`providers/0x_handler.go`) -/

/-- One entry of `route.fills[]`. -/
structure ZeroXFill where
  source : String
deriving Repr, DecidableEq

/-- One entry of `route.tokens[]`. -/
structure ZeroXToken where
  address : String
  symbol : String
deriving Repr, DecidableEq

/-- `ZeroXResponse`: `buyAmount` plus `route.fills` / `route.tokens`; the
slices are `Option` so that `none` models a JSON `null` / absent field
(Go `nil` slice), which the handler distinguishes from an empty slice. -/
structure ZeroXResponse where
  buyAmount : String
  fills : Option (List ZeroXFill)
  tokens : Option (List ZeroXToken)
deriving Repr, DecidableEq

/-- `ZeroXHandler.HandleResponse`.  The fills loop returns at the FIRST fill
whose source is not `"Balancer_V3"` (so the later `if !allBalancerV3` branch
is unreachable); the hop check compares the token count with
`ExpectedNoHops + 1`; on success `BuyAmount` is written into `ReturnAmount`
when non-empty.  (As in the source, the mismatch branches set
`LastStatus`/`Message` and then call `handleError` with the same values, so
the net update is the single `handleError`.) -/
def zeroxHandleResponse (result : Option ZeroXResponse) (e : Endpoint) :
    Endpoint × Option String :=
  match result with
  | none => (handleError e "down" "Error parsing JSON", some "error parsing JSON")
  | some r =>
    match r.fills, r.tokens with
    | none, _ =>
      (handleError e "down" "No Routes Found", some "response contains null fills or tokens")
    | some _, none =>
      (handleError e "down" "No Routes Found", some "response contains null fills or tokens")
    | some fills, some tokens =>
      match fills.find? (fun f => f.source ≠ "Balancer_V3") with
      | some f =>
        let msg := "Found source " ++ f.source ++ ", expected Balancer_V3"
        (handleError e "down" msg,
          some ("found source " ++ f.source ++ ", expected Balancer_V3"))
      | none =>
        let expectedTokens := e.expectedNoHops + 1
        if tokens.length ≠ expectedTokens then
          let msg := "Expected " ++ toString expectedTokens ++ " tokens (hops + 2), got " ++
            toString tokens.length
          (handleError e "down" msg,
            some ("expected " ++ toString expectedTokens ++ " tokens, got " ++
              toString tokens.length))
        else
          let e := if r.buyAmount ≠ "" then { e with returnAmount := r.buyAmount } else e
          (e, none)

/-! ## Concrete test data shared by witnesses and counterexamples -/

/-- A concrete endpoint configuration (name chosen so that the KyberSwap
source switch selects the `balancer-v3-stable` source). -/
def testEndpoint : Endpoint :=
  { name := "Test 80/20 Stable"
    baseName := "Test 80/20"
    solverName := "paraswap"
    routeSolver := "paraswap"
    network := "1"
    tokenIn := "0xTokenIn"
    tokenOut := "0xTokenOut"
    tokenInDecimals := 18
    tokenOutDecimals := 6
    swapAmount := "1000000"
    expectedPool := "0xPool"
    expectedNoHops := 1
    lastStatus := "up"
    lastChecked := 0
    message := "Ok"
    returnAmount := ""
    marketPrice := ""
    swapPathPools := []
    swapPathTokenOut := []
    swapPathIsBuffer := [] }

/-- A Paraswap response whose best route goes through BalancerV3 AND
UniswapV3. -/
def paraswapMixedRouteResponse : ParaswapResponse :=
  { error := ""
    destAmount := "100"
    bestRoute :=
      [{ swaps := [{ swapExchanges :=
          [{ exchange := "BalancerV3", poolAddresses := ["0xPool"] },
           { exchange := "UniswapV3", poolAddresses := ["0xOther"] }] }] }] }

/-- A KyberSwap response that passes every check of
`KyberSwapHandler.HandleResponse` for `testEndpoint`. -/
def kyberswapGoodResponse : KyberSwapResponse :=
  { code := 0
    message := ""
    requestId := "req-1"
    amountOut := "987654"
    routeID := "route-1"
    route := [[{ pool := "0xPool", exchange := "balancer-v3-stable" }]] }

/-! ## Helper lemmas -/

/-- The Paraswap `foundBalancerV3` triple loop finds a `"BalancerV3"`
exchange iff `"BalancerV3"` occurs among the flattened route exchanges. -/
theorem paraswap_found_balancer_iff (r : ParaswapResponse) :
    (r.bestRoute.any (fun route =>
        route.swaps.any (fun swap =>
          swap.swapExchanges.any (fun ex => ex.exchange = "BalancerV3")))) = true ↔
      "BalancerV3" ∈ paraswapRouteExchanges r := by
  simp only [paraswapRouteExchanges, List.any_eq_true, decide_eq_true_eq,
    List.mem_flatten, List.mem_map]
  aesop

/-- Inversion of a successful `KyberSwapHandler.HandleResponse` run: the
endpoint is returned unchanged, the endpoint name selects an expected
source, and every exchange of the flattened route equals it. -/
theorem kyberswap_success_inversion (r : KyberSwapResponse) (e e' : Endpoint)
    (h : kyberswapHandleResponse (some r) e = (e', none)) :
    e' = e ∧ ∃ src, kyberswapExpectedSource e.name = some src ∧
      ∀ it ∈ r.route.flatten, it.exchange = src := by
  rw [kyberswapHandleResponse] at h
  split at h
  · simp at h
  · split at h
    · simp at h
    · split at h
      · simp at h
      · split at h
        · simp at h
        · split at h
          · simp at h
          · rename_i src heq
            dsimp only at h
            split at h
            · simp at h
            · split at h
              · simp at h
              · split at h
                · simp at h
                · rename_i hfind
                  have h1 : e = e' := congrArg Prod.fst h
                  subst h1
                  refine ⟨rfl, src, heq, ?_⟩
                  intro it hit
                  have hx := List.find?_eq_none.mp hfind it.exchange
                    (List.mem_map_of_mem _ hit)
                  simpa using hx

/-! ## C1: sources appearing in a successfully validated restricted route -/

/-- C1 (counterexample).  The claim "for every registered provider adapter,
if the restricted-mode validation succeeds then every liquidity-source
identifier in the decoded route equals the required source string exactly; a
route containing any other source is rejected" is false for the Paraswap
adapter: `ParaswapHandler.HandleResponse` accepts a route that contains a
`"UniswapV3"` exchange besides the required `"BalancerV3"` one. -/
theorem c1_counterexample :
    (paraswapHandleResponse (.parsed paraswapMixedRouteResponse) testEndpoint).2 = none ∧
    "UniswapV3" ∈ paraswapRouteExchanges paraswapMixedRouteResponse ∧
    "UniswapV3" ≠ "BalancerV3" := by decide

/-- C1 (amended).  For the KyberSwap adapter a successful restricted
validation guarantees that every exchange of the decoded route equals the
expected source selected from the endpoint name; for the Paraswap adapter a
successful validation only guarantees that the required `"BalancerV3"`
source appears SOMEWHERE in the route (other sources are not rejected). -/
theorem c1_amended_restricted_sources :
    (∀ (r : KyberSwapResponse) (e e' : Endpoint) (src : String),
        kyberswapHandleResponse (some r) e = (e', none) →
        kyberswapExpectedSource e.name = some src →
        ∀ it ∈ r.route.flatten, it.exchange = src) ∧
    (∀ (r : ParaswapResponse) (e e' : Endpoint),
        paraswapHandleResponse (.parsed r) e = (e', none) →
        "BalancerV3" ∈ paraswapRouteExchanges r) := by
  constructor
  · intro r e e' src h hsrc it hit
    obtain ⟨-, src', hsrc', hall⟩ := kyberswap_success_inversion r e e' h
    rw [hsrc] at hsrc'
    cases hsrc'
    exact hall it hit
  · intro r e e' h
    by_cases hB : (r.bestRoute.any (fun route =>
        route.swaps.any (fun swap =>
          swap.swapExchanges.any (fun ex => ex.exchange = "BalancerV3")))) = true
    · exact (paraswap_found_balancer_iff r).mp hB
    · rw [paraswapHandleResponse] at h
      rw [Bool.not_eq_true] at hB
      split at h
      · simp at h
      · split at h
        · simp at h
        · simp [hB] at h

/-- C1 (witness for the amended theorem). -/
theorem c1_amended_witness :
    (∀ it ∈ kyberswapGoodResponse.route.flatten, it.exchange = "balancer-v3-stable") ∧
    "BalancerV3" ∈ paraswapRouteExchanges paraswapMixedRouteResponse :=
  ⟨c1_amended_restricted_sources.1 kyberswapGoodResponse testEndpoint testEndpoint
      "balancer-v3-stable" (by decide) (by decide),
    c1_amended_restricted_sources.2 paraswapMixedRouteResponse testEndpoint
      ((paraswapHandleResponse (.parsed paraswapMixedRouteResponse) testEndpoint).1)
      (by decide)⟩

/-! ## C4: writing ReturnAmount on successful restricted validation -/

/-- C4 (counterexample).  The claim "every registered adapter's restricted
validator writes the normalized destination amount to ReturnAmount whenever
it succeeds" is false for the KyberSwap adapter: on `kyberswapGoodResponse`
the validator succeeds, yet `ReturnAmount` keeps its prior value `""`
instead of the response amount `"987654"`. -/
theorem c4_counterexample :
    (kyberswapHandleResponse (some kyberswapGoodResponse) testEndpoint).2 = none ∧
    (kyberswapHandleResponse (some kyberswapGoodResponse) testEndpoint).1.returnAmount = "" ∧
    kyberswapGoodResponse.amountOut = "987654" ∧
    ("" : String) ≠ "987654" := by decide

/-- C4 (amended).  The 0x and Paraswap validators write the destination
amount into `ReturnAmount` on success (whenever the response carries a
non-empty amount), while the KyberSwap validator returns success leaving the
endpoint record completely unchanged. -/
theorem c4_amended_return_amount :
    (∀ (r : ZeroXResponse) (e e' : Endpoint),
        zeroxHandleResponse (some r) e = (e', none) → r.buyAmount ≠ "" →
        e'.returnAmount = r.buyAmount) ∧
    (∀ (r : ParaswapResponse) (e e' : Endpoint),
        paraswapHandleResponse (.parsed r) e = (e', none) → r.destAmount ≠ "" →
        e'.returnAmount = r.destAmount) ∧
    (∀ (r : KyberSwapResponse) (e e' : Endpoint),
        kyberswapHandleResponse (some r) e = (e', none) → e' = e) := by
  refine ⟨?_, ?_, ?_⟩
  · intro r e e' h hb
    rw [zeroxHandleResponse] at h
    repeat' split at h
    all_goals try simp_all
    all_goals try (split at h <;> try simp_all)
    all_goals simp [← h]
  · intro r e e' h hb
    rw [paraswapHandleResponse] at h
    repeat' split at h
    all_goals try simp_all
    all_goals try (split at h <;> try simp_all)
    all_goals simp [← h]
  · intro r e e' h
    exact (kyberswap_success_inversion r e e' h).1

/-- A 0x response that passes every check of `ZeroXHandler.HandleResponse`
for `testEndpoint` (1 expected hop, hence 2 route tokens). -/
def zeroxGoodResponse : ZeroXResponse :=
  { buyAmount := "987654"
    fills := some [{ source := "Balancer_V3" }]
    tokens := some [{ address := "0xTokenIn", symbol := "TIN" },
                    { address := "0xTokenOut", symbol := "TOUT" }] }

/-- C4 (witness for the amended theorem). -/
theorem c4_amended_witness :
    (zeroxHandleResponse (some zeroxGoodResponse) testEndpoint).1.returnAmount = "987654" ∧
    (kyberswapHandleResponse (some kyberswapGoodResponse) testEndpoint).1 = testEndpoint :=
  ⟨c4_amended_return_amount.1 zeroxGoodResponse testEndpoint
      ((zeroxHandleResponse (some zeroxGoodResponse) testEndpoint).1) (by decide) (by decide),
    c4_amended_return_amount.2.2 kyberswapGoodResponse testEndpoint
      ((kyberswapHandleResponse (some kyberswapGoodResponse) testEndpoint).1) (by decide)⟩

/-! ## C8: hop-count boundary in the 0x adapter -/

/-- C8 (confirmed).  In the 0x adapter, with parsable fills/tokens that all
come from `Balancer_V3`, a route whose token count equals
`ExpectedNoHops + 1` passes validation, while a token count of
`ExpectedNoHops + 2` (one hop too many) or `ExpectedNoHops` (one hop too
few) fails with the explicit mismatch message and status `"down"`. -/
theorem c8_zerox_hop_count (buy : String) (fills : List ZeroXFill)
    (tokens : List ZeroXToken) (e : Endpoint)
    (hall : ∀ f ∈ fills, f.source = "Balancer_V3") :
    (tokens.length = e.expectedNoHops + 1 →
      (zeroxHandleResponse (some ⟨buy, some fills, some tokens⟩) e).2 = none) ∧
    (tokens.length = e.expectedNoHops + 2 ∨
        (1 ≤ e.expectedNoHops ∧ tokens.length = e.expectedNoHops) →
      zeroxHandleResponse (some ⟨buy, some fills, some tokens⟩) e =
        (handleError e "down"
            ("Expected " ++ toString (e.expectedNoHops + 1) ++ " tokens (hops + 2), got " ++
              toString tokens.length),
          some ("expected " ++ toString (e.expectedNoHops + 1) ++ " tokens, got " ++
              toString tokens.length)) ∧
      (zeroxHandleResponse (some ⟨buy, some fills, some tokens⟩) e).1.lastStatus = "down") := by
  have hfind : fills.find? (fun f => f.source ≠ "Balancer_V3") = none := by
    rw [List.find?_eq_none]
    intro f hfmem
    simpa using hall f hfmem
  simp only [zeroxHandleResponse, hfind]
  constructor
  · intro hlen
    rw [if_neg (by simp [hlen])]
  · intro hlen
    have hne : tokens.length ≠ e.expectedNoHops + 1 := by
      rcases hlen with hlen | ⟨h1, hlen⟩ <;> omega
    rw [if_pos hne]
    exact ⟨rfl, rfl⟩

/-- A 0x response with one hop too many (3 tokens for 1 expected hop). -/
def zeroxThreeTokenResponse : ZeroXResponse :=
  { buyAmount := "987654"
    fills := some [{ source := "Balancer_V3" }]
    tokens := some [{ address := "0xTokenIn", symbol := "TIN" },
                    { address := "0xMid", symbol := "MID" },
                    { address := "0xTokenOut", symbol := "TOUT" }] }

/-- C8 (witness): concrete instances of both boundary cases. -/
theorem c8_zerox_hop_count_witness :
    (zeroxHandleResponse (some zeroxGoodResponse) testEndpoint).2 = none ∧
    (zeroxHandleResponse (some zeroxThreeTokenResponse) testEndpoint).1.lastStatus = "down" :=
  ⟨(c8_zerox_hop_count "987654" [{ source := "Balancer_V3" }]
      [{ address := "0xTokenIn", symbol := "TIN" },
       { address := "0xTokenOut", symbol := "TOUT" }] testEndpoint (by decide)).1 (by decide),
    ((c8_zerox_hop_count "987654" [{ source := "Balancer_V3" }]
      [{ address := "0xTokenIn", symbol := "TIN" },
       { address := "0xMid", symbol := "MID" },
       { address := "0xTokenOut", symbol := "TOUT" }] testEndpoint (by decide)).2
      (Or.inl (by decide))).2⟩

/-! ## A model of the Go `math/big.Float` arithmetic used by
`BalancerSORHandler.convertFromDecimalAmount`

`big.Float` is binary floating point: a sign, a mantissa of `prec`
significant bits and an unbounded exponent, with `ToNearestEven` rounding.
A value is modelled as `m · 2^e` together with its precision; every
operation rounds the exact result back to the operand precision, exactly as
the Go library does.  All arithmetic below is on `Nat`/`Int`, so every
definition evaluates inside the kernel. -/

/-- Number of binary digits of `n` (`0` for `n = 0`).  The first argument
is recursion fuel; `n` itself is enough fuel because the bit length of a
positive `n` is at most `n`. -/
def bitlenAux : Nat → Nat → Nat
  | 0, _ => 0
  | fuel + 1, n => if n = 0 then 0 else bitlenAux fuel (n / 2) + 1

/-- Bit length of a natural number. -/
def bitlen (n : Nat) : Nat := bitlenAux n n

/-- Round the fraction `N / D` (`D ≥ 1`) to an integer, ties to even: the
`big.Float` `ToNearestEven` rounding mode. -/
def roundHalfEven (N D : Nat) : Nat :=
  let q := N / D
  let r := N % D
  if 2 * r < D then q
  else if D < 2 * r then q + 1
  else if q % 2 = 0 then q else q + 1

/-- `⌊log₂ (n / d)⌋` for `n, d ≥ 1`, computed from bit lengths: the true
value is `bitlen n - bitlen d` or one less, decided by one comparison. -/
def ratFloorLog2 (n d : Nat) : Int :=
  let a : Int := (bitlen n : Int) - (bitlen d : Int)
  if (if 0 ≤ a then d * 2 ^ a.toNat ≤ n else d ≤ n * 2 ^ (-a).toNat) then a else a - 1

/-- A `big.Float` value `m · 2^e` carrying its precision in bits. -/
structure GoBigFloat where
  m : Int
  e : Int
  prec : Nat
deriving Repr, DecidableEq

/-- Round the positive rational `n / d` (`n, d ≥ 1`) to `prec` significant
bits, ties to even.  The result `(m, e)` denotes `m · 2^e`; after a carry
`m` may be `2^prec`, which denotes the same real value. -/
def roundRatToPrec (prec : Nat) (n d : Nat) : Nat × Int :=
  let e : Int := ratFloorLog2 n d - (prec - 1 : Nat)
  let N := n * 2 ^ (max 0 (-e)).toNat
  let D := d * 2 ^ (max 0 e).toNat
  (roundHalfEven N D, e)

/-- Round the value `m · 2^e` to a `GoBigFloat` of precision `prec`. -/
def roundIntScaled (prec : Nat) (m : Int) (e : Int) : GoBigFloat :=
  if m = 0 then ⟨0, 0, prec⟩
  else
    let p := roundRatToPrec prec m.natAbs 1
    ⟨if m < 0 then -(p.1 : Int) else (p.1 : Int), p.2 + e, prec⟩

/-- `z.Mul(x, y)` on a fresh `z`: since `z`'s precision is 0 it is raised to
the larger of the operands' precisions before the multiplication rounds. -/
def floatMul (x y : GoBigFloat) : GoBigFloat :=
  roundIntScaled (max x.prec y.prec) (x.m * y.m) (x.e + y.e)

/-- `big.Float.Int`: truncation towards zero. -/
def floatTruncInt (x : GoBigFloat) : Int :=
  if 0 ≤ x.e then x.m * 2 ^ x.e.toNat
  else x.m.tdiv (2 ^ (-x.e).toNat)

/-- The `float64` nearest to `10^k` — the value of a Go `1e<k>` constant
(decimal constants are rounded to nearest at compile time), precision 53. -/
def float64Pow10 (k : Nat) : GoBigFloat := roundIntScaled 53 ((10 : Int) ^ k) 0

/-- Go `math.Pow10 k`, computed by the library as
`pow10tab[k%32] * pow10postab32[k/32]`: one `float64` multiplication of two
correctly rounded powers of ten.  (For `k > 308` Go overflows to `+Inf`;
token decimals here are at most 18, far below that, so the model keeps the
finite formula.) -/
def mathPow10 (k : Nat) : GoBigFloat :=
  floatMul (float64Pow10 (k % 32)) (float64Pow10 (32 * (k / 32)))

/-- Numeric value of a run of decimal digit characters. -/
def digitsVal (ds : List Char) : Nat :=
  ds.foldl (fun acc c => acc * 10 + (c.toNat - 48)) 0

/-- Split off a leading run of decimal digits. -/
def takeDigits (cs : List Char) : List Char × List Char :=
  (cs.takeWhile Char.isDigit, cs.dropWhile Char.isDigit)

/-- Parse the decimal forms `big.Float.SetString` accepts for the amounts
arising here: optional sign, integer digits, optional fraction, optional
decimal exponent, with at least one mantissa digit and nothing left over.
The result `(mant, ten)` denotes `mant · 10^ten`.  (The hexadecimal,
binary-exponent and infinity forms of `big.Float.Parse` cannot occur in the
JSON amount fields and are outside the model.) -/
def parseGoDecimal (s : String) : Option (Int × Int) :=
  let cs := s.data
  let signAndRest : Int × List Char :=
    match cs with
    | '-' :: rest => (-1, rest)
    | '+' :: rest => (1, rest)
    | _ => (1, cs)
  let sign := signAndRest.1
  let (intPart, afterInt) := takeDigits signAndRest.2
  let fracAndRest : List Char × List Char :=
    match afterInt with
    | '.' :: rest => takeDigits rest
    | _ => ([], afterInt)
  let fracPart := fracAndRest.1
  let afterFrac := fracAndRest.2
  if intPart.length + fracPart.length = 0 then none
  else
    let mant : Int := sign * (digitsVal (intPart ++ fracPart) : Int)
    let fracExp : Int := -(fracPart.length : Int)
    match afterFrac with
    | [] => some (mant, fracExp)
    | 'e' :: rest =>
      let esignAndRest : Int × List Char :=
        match rest with
        | '-' :: r => (-1, r)
        | '+' :: r => (1, r)
        | _ => (1, rest)
      let (eDigits, afterExp) := takeDigits esignAndRest.2
      if eDigits.length = 0 ∨ afterExp ≠ [] then none
      else some (mant, fracExp + esignAndRest.1 * (digitsVal eDigits : Int))
    | 'E' :: rest =>
      let esignAndRest : Int × List Char :=
        match rest with
        | '-' :: r => (-1, r)
        | '+' :: r => (1, r)
        | _ => (1, rest)
      let (eDigits, afterExp) := takeDigits esignAndRest.2
      if eDigits.length = 0 ∨ afterExp ≠ [] then none
      else some (mant, fracExp + esignAndRest.1 * (digitsVal eDigits : Int))
    | _ => none

/-- `new(big.Float).SetString s`: parse `s` and round the exact decimal
value to precision 64 (a fresh `big.Float` has precision 0, which
`SetString` raises to 64), ties to even. -/
def goBigFloatSetString (s : String) : Option GoBigFloat :=
  match parseGoDecimal s with
  | none => none
  | some (mant, ten) =>
    if mant = 0 then some ⟨0, 0, 64⟩
    else if 0 ≤ ten then
      some (roundIntScaled 64 (mant * 10 ^ ten.toNat) 0)
    else
      let p := roundRatToPrec 64 mant.natAbs (10 ^ (-ten).toNat)
      some ⟨if mant < 0 then -(p.1 : Int) else (p.1 : Int), p.2, 64⟩

/-- `BalancerSORHandler.convertFromDecimalAmount`: parse the decimal amount
with `big.Float.SetString` (precision 64), multiply by
`new(big.Float).SetFloat64(math.Pow10(decimals))` (precision 53, holding
exactly the `float64` value), truncate towards zero with `Float.Int` and
print the integer.  Every step is binary floating point. -/
def convertFromDecimalAmount (decimalAmount : String) (decimals : Nat) :
    Except String String :=
  match goBigFloatSetString decimalAmount with
  | none => .error ("invalid decimal amount: " ++ decimalAmount)
  | some decimalFloat =>
    let multiplier := mathPow10 decimals
    let result := floatMul decimalFloat multiplier
    .ok (toString (floatTruncInt result))

/-- The conversion described by the spec's invariant ("amounts are raw
integer strings ... produced using arbitrary-precision integer arithmetic
only"), stated with exact integer arithmetic: the parsed decimal value
`mant · 10^ten` times `10^decimals`, truncated towards zero.  This is the
claim-side definition that C6 compares `convertFromDecimalAmount`
against. -/
def exactConvertFromDecimalAmount (decimalAmount : String) (decimals : Nat) :
    Except String String :=
  match parseGoDecimal decimalAmount with
  | none => .error ("invalid decimal amount: " ++ decimalAmount)
  | some (mant, ten) =>
    let p : Int := ten + (decimals : Int)
    if 0 ≤ p then .ok (toString (mant * 10 ^ p.toNat))
    else .ok (toString (mant.tdiv (10 ^ (-p).toNat)))

/-! ## Balancer SOR handler (`BalancerSORHandler.HandleResponse`) -/

/-- One entry of `data.sorGetSwapPaths.paths[].tokens[]`. -/
structure BalancerSORToken where
  address : String
deriving Repr, DecidableEq

/-- One entry of `data.sorGetSwapPaths.paths[]`. -/
structure BalancerSORPath where
  pools : List String
  tokens : List BalancerSORToken
  isBuffer : List Bool
deriving Repr, DecidableEq

/-- `BalancerSORResponse` flattened to the fields the handler reads:
`data.sorGetSwapPaths.{swapAmount, returnAmount, paths}` and the GraphQL
`errors[].message` list. -/
structure BalancerSORResponse where
  swapAmount : String
  returnAmount : String
  paths : List BalancerSORPath
  errors : List String
deriving Repr, DecidableEq

/-- `BalancerSORHandler.HandleResponse`: error checks, then store
`ReturnAmount` (decimal, then overwritten with the raw conversion when
`convertFromDecimalAmount` succeeds), then store the first path's pools /
isBuffer / per-step output tokens, then require `ExpectedPool` among the
first path's pools. -/
def balancerSORHandleResponse (result : Option BalancerSORResponse) (e : Endpoint) :
    Endpoint × Option String :=
  match result with
  | none => (handleError e "down" "Error parsing JSON", some "error parsing JSON")
  | some r =>
    match r.errors with
    | errorMessage :: _ =>
      (handleError e "down" ("GraphQL error: " ++ errorMessage),
        some ("GraphQL error: " ++ errorMessage))
    | [] =>
      if r.swapAmount = "" then
        (handleError e "down" "No swap amount found in response",
          some "no swap amount found in response")
      else if r.returnAmount = "" then
        (handleError e "down" "No return amount found in response",
          some "no return amount found in response")
      else
        let e := { e with returnAmount := r.returnAmount }
        let e :=
          match convertFromDecimalAmount r.returnAmount e.tokenOutDecimals with
          | .error _ => e
          | .ok rawReturnAmount => { e with returnAmount := rawReturnAmount }
        match r.paths with
        | [] =>
          (handleError e "down" "No paths found in response",
            some "no paths found in response")
        | path :: _ =>
          let pools := path.pools
          let e := { e with swapPathPools := pools, swapPathIsBuffer := path.isBuffer }
          let e :=
            if 0 < path.tokens.length then
              { e with swapPathTokenOut := (List.range pools.length).map (fun i =>
                  if i + 1 < path.tokens.length then
                    (path.tokens.getD (i + 1) { address := "" }).address
                  else
                    (path.tokens.getD (path.tokens.length - 1) { address := "" }).address) }
            else e
          if pools.any (fun pool => pool = e.expectedPool) then (e, none)
          else
            let msg := "Expected pool " ++ e.expectedPool ++ " not found in pools: [" ++
              String.intercalate " " pools ++ "]"
            (handleError e "down" msg,
              some ("expected pool " ++ e.expectedPool ++ " not found in pools: [" ++
                String.intercalate " " pools ++ "]"))

/-! ## Dashboard amount comparison (`handlers/dashboard.go`) -/

/-- `big.Int.SetString s 10`: optional sign followed by a non-empty run of
decimal digits (underscores are only allowed with base 0). -/
def goParseBigInt10 (s : String) : Option Int :=
  let signAndRest : Int × List Char :=
    match s.data with
    | '-' :: rest => (-1, rest)
    | '+' :: rest => (1, rest)
    | _ => (1, s.data)
  if signAndRest.2.length = 0 then none
  else if signAndRest.2.all Char.isDigit then
    some (signAndRest.1 * (digitsVal signAndRest.2 : Int))
  else none

/-- The dashboard's amount parsing (lines 345-363 of
`handlers/dashboard.go`): empty or `"N/A"` strings become `"0"`, and a
failed `big.Int.SetString` leaves the value `0`. -/
def dashboardAmountValue (s : String) : Int :=
  let s := if s = "" ∨ s = "N/A" then "0" else s
  match goParseBigInt10 s with
  | some v => v
  | none => 0

/-- The dashboard's per-row highlight decision (lines 341-373): with at
least one positive amount, highlight whichever of
(ReturnAmount, MarketPrice) is strictly larger by `big.Int.Cmp`; the result
is (return-cell highlighted, market-cell highlighted). -/
def dashboardRowHighlight (returnAmount marketPrice : String) : Bool × Bool :=
  let returnAmountBig := dashboardAmountValue returnAmount
  let marketPriceBig := dashboardAmountValue marketPrice
  if 0 < returnAmountBig ∨ 0 < marketPriceBig then
    if marketPriceBig < returnAmountBig then (true, false)
    else if returnAmountBig < marketPriceBig then (false, true)
    else (false, false)
  else (false, false)

/-! ## C2: ExpectedPool must appear in the validated route -/

/-- A Paraswap response routed through BalancerV3 but whose pool addresses
do not include `testEndpoint`'s expected pool `"0xPool"`. -/
def paraswapWrongPoolResponse : ParaswapResponse :=
  { error := ""
    destAmount := "42"
    bestRoute :=
      [{ swaps := [{ swapExchanges :=
          [{ exchange := "BalancerV3", poolAddresses := ["0xDifferentPool"] }] }] }] }

/-- C2 (counterexample).  The claim "for every registered adapter, if the
restricted validation succeeds then ExpectedPool appears among the pool
addresses of the decoded route" is false for the Paraswap adapter: it
validates a route whose pool addresses nowhere contain the expected
pool. -/
theorem c2_counterexample :
    (paraswapHandleResponse (.parsed paraswapWrongPoolResponse) testEndpoint).2 = none ∧
    (∀ route ∈ paraswapWrongPoolResponse.bestRoute, ∀ swap ∈ route.swaps,
      ∀ ex ∈ swap.swapExchanges, testEndpoint.expectedPool ∉ ex.poolAddresses) := by
  decide

/-- Helper: evaluation of `BalancerSORHandler.HandleResponse` when the
expected pool is absent from the first path and the prior checks pass. -/
theorem balancerSOR_missing_pool (sa ra : String) (path : BalancerSORPath)
    (rest : List BalancerSORPath) (e : Endpoint)
    (hsa : sa ≠ "") (hra : ra ≠ "") (hnot : e.expectedPool ∉ path.pools) :
    (balancerSORHandleResponse (some ⟨sa, ra, path :: rest, []⟩) e).2 =
      some ("expected pool " ++ e.expectedPool ++ " not found in pools: [" ++
        String.intercalate " " path.pools ++ "]") ∧
    (balancerSORHandleResponse (some ⟨sa, ra, path :: rest, []⟩) e).1.lastStatus = "down" ∧
    (balancerSORHandleResponse (some ⟨sa, ra, path :: rest, []⟩) e).1.message =
      "Expected pool " ++ e.expectedPool ++ " not found in pools: [" ++
        String.intercalate " " path.pools ++ "]" := by
  have hany : (path.pools.any (fun pool => pool = e.expectedPool)) = false := by
    rw [List.any_eq_false]
    intro x hx
    simp only [decide_eq_true_eq]
    intro hxe
    exact hnot (hxe ▸ hx)
  rw [balancerSORHandleResponse]
  rw [if_neg hsa, if_neg hra]
  rcases hconv : convertFromDecimalAmount ra e.tokenOutDecimals with msg | raw <;>
    simp only [hconv] <;> split <;> simp [hany, handleError]

/-- C2 (amended).  For the Balancer SOR adapter the property holds in both
directions: a successful validation implies `ExpectedPool` occurs among the
first path's pools, and — once the prior checks pass — its absence yields
failure with status `"down"` and a message naming the expected pool.  (The
Paraswap and 1inch adapters check only the liquidity source, never the
expected pool.) -/
theorem c2_amended_expected_pool :
    (∀ (sa ra : String) (path : BalancerSORPath) (rest : List BalancerSORPath)
        (e e' : Endpoint),
        balancerSORHandleResponse (some ⟨sa, ra, path :: rest, []⟩) e = (e', none) →
        e.expectedPool ∈ path.pools) ∧
    (∀ (sa ra : String) (path : BalancerSORPath) (rest : List BalancerSORPath)
        (e : Endpoint),
        sa ≠ "" → ra ≠ "" → e.expectedPool ∉ path.pools →
        (balancerSORHandleResponse (some ⟨sa, ra, path :: rest, []⟩) e).2 =
          some ("expected pool " ++ e.expectedPool ++ " not found in pools: [" ++
            String.intercalate " " path.pools ++ "]") ∧
        (balancerSORHandleResponse (some ⟨sa, ra, path :: rest, []⟩) e).1.lastStatus = "down" ∧
        (balancerSORHandleResponse (some ⟨sa, ra, path :: rest, []⟩) e).1.message =
          "Expected pool " ++ e.expectedPool ++ " not found in pools: [" ++
            String.intercalate " " path.pools ++ "]") := by
  constructor
  · intro sa ra path rest e e' h
    by_cases hsa : sa = ""
    · rw [balancerSORHandleResponse] at h
      simp [hsa] at h
    by_cases hra : ra = ""
    · rw [balancerSORHandleResponse] at h
      simp [hsa, hra] at h
    by_cases hmem : e.expectedPool ∈ path.pools
    · exact hmem
    · have h2 := (balancerSOR_missing_pool sa ra path rest e hsa hra hmem).1
      rw [h] at h2
      simp at h2
  · intro sa ra path rest e hsa hra hnot
    exact balancerSOR_missing_pool sa ra path rest e hsa hra hnot

/-- A Balancer SOR response whose single path goes through `testEndpoint`'s
expected pool. -/
def balancerSORGoodResponse : BalancerSORResponse :=
  { swapAmount := "1.000000"
    returnAmount := "0.987654"
    paths := [{ pools := ["0xPool"]
                tokens := [{ address := "0xTokenIn" }, { address := "0xTokenOut" }]
                isBuffer := [false] }]
    errors := [] }

set_option maxRecDepth 8000 in
/-- C2 (witness for the amended theorem). -/
theorem c2_amended_witness :
    testEndpoint.expectedPool ∈ ["0xPool"] ∧
    (balancerSORHandleResponse
        (some ⟨"1.0", "2.0", [{ pools := ["0xOther"], tokens := [], isBuffer := [] }], []⟩)
        testEndpoint).1.lastStatus = "down" :=
  ⟨c2_amended_expected_pool.1 "1.000000" "0.987654"
      { pools := ["0xPool"]
        tokens := [{ address := "0xTokenIn" }, { address := "0xTokenOut" }]
        isBuffer := [false] } [] testEndpoint
      ((balancerSORHandleResponse (some balancerSORGoodResponse) testEndpoint).1)
      (by decide),
    ((c2_amended_expected_pool.2 "1.0" "2.0"
        { pools := ["0xOther"], tokens := [], isBuffer := [] } [] testEndpoint
        (by decide) (by decide) (by decide)).2).1⟩

/-! ## C6: integer-only production and comparison of amounts -/

/-- Equality of `Except` results is decidable (needed to evaluate the C6
counterexample). -/
instance {α β : Type} [DecidableEq α] [DecidableEq β] : DecidableEq (Except α β) :=
  fun x y =>
    match x, y with
    | .error a, .error b =>
      if h : a = b then .isTrue (by rw [h]) else .isFalse (by simp [h])
    | .ok a, .ok b =>
      if h : a = b then .isTrue (by rw [h]) else .isFalse (by simp [h])
    | .error _, .ok _ => .isFalse (by simp)
    | .ok _, .error _ => .isFalse (by simp)

set_option maxRecDepth 8000 in
/-- C6 (counterexample).  The claim "amounts are produced and compared
using arbitrary-precision integer arithmetic only; no floating-point
computation is used to produce or compare these amounts" is false on the
production side: `convertFromDecimalAmount` goes through `big.Float` /
`math.Pow10` binary floating point, and for the decimal amount `"1"` with
23 output-token decimals it produces `99999999999999991611392` — the
`float64` rounding of `1e23` — where exact integer arithmetic gives
`10^23`. -/
theorem c6_counterexample :
    convertFromDecimalAmount "1" 23 = .ok "99999999999999991611392" ∧
    exactConvertFromDecimalAmount "1" 23 = .ok "100000000000000000000000" ∧
    convertFromDecimalAmount "1" 23 ≠ exactConvertFromDecimalAmount "1" 23 := by
  decide

/-- C6 (amended).  The COMPARISON side of the invariant holds: the
dashboard decides which of ReturnAmount / MarketPrice to highlight purely
by arbitrary-precision integer ordering of the parsed values (so `"150"`
beats `"100"` and `"10"` beats `"9"`, not lexicographic order) — but the
Balancer SOR adapter PRODUCES those amount strings via `big.Float`
floating-point conversion, which can misround (see the counterexample). -/
theorem c6_amended_bigint_comparison :
    ∀ (ret mkt : String) (x y : Int),
      goParseBigInt10 ret = some x → goParseBigInt10 mkt = some y →
      dashboardRowHighlight ret mkt =
        (decide ((0 < x ∨ 0 < y) ∧ y < x), decide ((0 < x ∨ 0 < y) ∧ x < y)) := by
  intro ret mkt x y hx hy
  have hret : dashboardAmountValue ret = x := by
    unfold dashboardAmountValue
    have h1 : ¬(ret = "" ∨ ret = "N/A") := by
      rintro (rfl | rfl) <;> simp [goParseBigInt10] at hx
    rw [if_neg h1]
    simp only [hx]
  have hmkt : dashboardAmountValue mkt = y := by
    unfold dashboardAmountValue
    have h1 : ¬(mkt = "" ∨ mkt = "N/A") := by
      rintro (rfl | rfl) <;> simp [goParseBigInt10] at hy
    rw [if_neg h1]
    simp only [hy]
  unfold dashboardRowHighlight
  rw [hret, hmkt]
  by_cases h1 : (0 : Int) < x ∨ 0 < y
  · by_cases h2 : y < x
    · simp [h1, h2, lt_asymm h2]
    · by_cases h3 : x < y
      · simp [h1, h2, h3]
      · simp [h1, h2, h3]
  · simp [h1]

/-- C6 (witness for the amended theorem): `"150"` beats `"100"` and `"10"`
beats `"9"` by integer order despite `"10" < "9"` lexicographically. -/
theorem c6_amended_witness :
    dashboardRowHighlight "100" "150" = (false, true) ∧
    dashboardRowHighlight "9" "10" = (false, true) :=
  ⟨(c6_amended_bigint_comparison "100" "150" 100 150 (by decide) (by decide)).trans
      (by decide),
    (c6_amended_bigint_comparison "9" "10" 9 10 (by decide) (by decide)).trans
      (by decide)⟩

/-! ## Provider registry check orchestration (`internal/monitor`, the
`ProviderRegistry` file) -/

/-- `ProviderConfig` (the `Handler`/`URLBuilder`/`RequestBodyBuilder`
strategy objects are the per-provider functions embedded above; the
transport data is carried here).  `CustomHeaders` is an association
list. -/
structure ProviderConfig where
  apiKeyEnvVar : String
  customHeaders : List (String × String)
  usePOST : Bool
deriving Repr, DecidableEq

/-- `ProviderRegistry.isWIPCase`: the fixed compatibility table of
known-unsupported provider/pool-type/network combinations. -/
def isWIPCase (e : Endpoint) : Bool :=
  if e.routeSolver = "1inch" then
    goStringContains e.name "GyroE" || goStringContains e.name "Quant" ||
      e.network = "43114"
  else if e.routeSolver = "odos" then goStringContains e.name "Quant"
  else false

/-- `ProviderRegistry.handleWIPCase`: stamp the check time and mark the
endpoint `"info"` with the matching WIP message. -/
def handleWIPCase (now : Nat) (e : Endpoint) : Endpoint :=
  let message :=
    if e.routeSolver = "1inch" then
      if goStringContains e.name "GyroE" then "1inch GyroE integration WIP"
      else if goStringContains e.name "Quant" then "1inch QuantAMM integration WIP"
      else if e.network = "43114" then "1inch network support WIP"
      else ""
    else if e.routeSolver = "odos" then "Odos QuantAMM integration WIP"
    else ""
  { e with lastChecked := now, lastStatus := "info", message := message }

/-- `APIClient.ValidateAPIKey` (internal/api/client.go:221-229): look the
variable up in the environment; an empty value marks the endpoint
`"error"` with a message naming the variable and returns an error
(modelled as `none`); otherwise the key is returned and the endpoint is
untouched. -/
def validateAPIKey (env : String → String) (envVar : String) (e : Endpoint) :
    Endpoint × Option String :=
  let apiKey := env envVar
  if apiKey = "" then
    (handleError e "error" (envVar ++ " environment variable not set"), none)
  else (e, some apiKey)

/-- The provider-specific API-key headers added by both generic check
functions (`switch endpoint.RouteSolver`), guarded by `apiKey != ""`. -/
def providerAPIKeyHeaders (routeSolver apiKey : String) : List (String × String) :=
  if apiKey = "" then []
  else if routeSolver = "0x" then [("0x-api-key", apiKey), ("0x-version", "v2")]
  else if routeSolver = "1inch" then
    [("Authorization", "Bearer " ++ apiKey), ("Content-Type", "application/json")]
  else if routeSolver = "hyperbloom" then [("api-key", apiKey)]
  else if routeSolver = "barter" then [("Authorization", "Bearer " ++ apiKey)]
  else []

/-- Where a `checkWithGenericClient` run ends, as far as the state and the
outside world can observe it: a WIP skip, a fail-fast on a missing API key,
or reaching `client.CheckAPI` — the point where the HTTP request is issued
(`request` carries the assembled headers and the resolved
`IsBalancerSourceOnly` flag). -/
inductive GenericCheckOutcome where
  | wip : Endpoint → GenericCheckOutcome
  | missingKey : Endpoint → GenericCheckOutcome
  | request : Endpoint → List (String × String) → Bool → GenericCheckOutcome
deriving Repr, DecidableEq

/-- `ProviderRegistry.checkWithGenericClient` up to the `client.CheckAPI`
network call: WIP check first, then API-key validation (fail fast), then
header assembly and option resolution ( `IsBalancerSourceOnly` defaults to
`true`; `checkOptions` collapses Go's `*CheckOptions` with its `*bool`
field into one `Option Bool`). -/
def checkWithGenericClient (env : String → String) (now : Nat) (cfg : ProviderConfig)
    (e : Endpoint) (checkOptions : Option Bool) : GenericCheckOutcome :=
  if isWIPCase e then .wip (handleWIPCase now e)
  else if cfg.apiKeyEnvVar ≠ "" then
    match validateAPIKey env cfg.apiKeyEnvVar e with
    | (e', none) => .missingKey e'
    | (e', some apiKey) =>
      .request e' (cfg.customHeaders ++ providerAPIKeyHeaders e.routeSolver apiKey)
        (checkOptions.getD true)
  else
    .request e (cfg.customHeaders ++ providerAPIKeyHeaders e.routeSolver "")
      (checkOptions.getD true)

/-- `ProviderRegistry.checkWithGenericClientForMarketPrice`: WIP cases make
no market-price call at all; then API-key validation runs against the
ORIGINAL endpoint; then `client.CheckAPIForMarketPrice` (a repository
function whose effect on the scratch copy is abstracted as the
`runCheckAPIForMarketPrice` parameter) runs against `tempEndpoint`, a copy,
and only `MarketPrice` is copied back. -/
def checkWithGenericClientForMarketPrice (env : String → String)
    (runCheckAPIForMarketPrice : Endpoint → Endpoint) (cfg : ProviderConfig)
    (e : Endpoint) : Endpoint :=
  if isWIPCase e then e
  else if cfg.apiKeyEnvVar ≠ "" then
    match validateAPIKey env cfg.apiKeyEnvVar e with
    | (e', none) => e'
    | (_, some _) =>
      let tempEndpoint := e
      { e with marketPrice := (runCheckAPIForMarketPrice tempEndpoint).marketPrice }
  else
    let tempEndpoint := e
    { e with marketPrice := (runCheckAPIForMarketPrice tempEndpoint).marketPrice }

/-- The all-default environment: every variable unset. -/
def emptyEnv : String → String := fun _ => ""

/-- An environment in which every variable resolves to a key. -/
def keyEnv : String → String := fun _ => "test-key"

/-- `testEndpoint` wired to the 0x provider (whose registry entry requires
the `ZEROX_API_KEY` environment variable). -/
def zeroxTestEndpoint : Endpoint :=
  { testEndpoint with routeSolver := "0x", solverName := "0x" }

/-- The 0x registry entry's transport configuration. -/
def zeroxProviderConfig : ProviderConfig :=
  { apiKeyEnvVar := "ZEROX_API_KEY", customHeaders := [], usePOST := false }

/-! ## C5: the market-price sub-check must not touch the restricted
results -/

/-- C5 (counterexample).  The claim "after the market-price sub-check,
every field other than MarketPrice holds its prior value; LastStatus,
Message, ReturnAmount are never overwritten" is false when the required API
key is missing at the market-price phase: `ValidateAPIKey` runs against the
ORIGINAL endpoint (before the scratch copy is made) and overwrites
`LastStatus`/`Message` of the primary record. -/
theorem c5_counterexample :
    zeroxTestEndpoint.lastStatus = "up" ∧ zeroxTestEndpoint.message = "Ok" ∧
    (checkWithGenericClientForMarketPrice emptyEnv id zeroxProviderConfig
        zeroxTestEndpoint).lastStatus = "error" ∧
    (checkWithGenericClientForMarketPrice emptyEnv id zeroxProviderConfig
        zeroxTestEndpoint).message = "ZEROX_API_KEY environment variable not set" := by
  decide

/-- C5 (amended).  Whenever the API-key step passes (no key required, or
the variable is set) the market-price sub-check leaves every field of the
primary endpoint except `MarketPrice` unchanged, for EVERY possible
behaviour of the underlying `CheckAPIForMarketPrice` call — the scratch
copy isolates the primary record.  Only the missing-key path (see the
counterexample) writes `LastStatus`/`Message`. -/
theorem c5_amended_market_price_frame :
    ∀ (env : String → String) (runCheck : Endpoint → Endpoint)
      (cfg : ProviderConfig) (e : Endpoint),
      (cfg.apiKeyEnvVar = "" ∨ env cfg.apiKeyEnvVar ≠ "") →
      checkWithGenericClientForMarketPrice env runCheck cfg e =
        { e with marketPrice :=
            (checkWithGenericClientForMarketPrice env runCheck cfg e).marketPrice } := by
  intro env runCheck cfg e hkey
  unfold checkWithGenericClientForMarketPrice
  split
  · rfl
  · split
    · rename_i hvar
      rcases hkey with hk | hk
      · exact absurd hk (by simpa using hvar)
      · simp only [validateAPIKey]
        rw [if_neg hk]
    · rfl

/-- C5 (witness for the amended theorem). -/
theorem c5_amended_witness :
    checkWithGenericClientForMarketPrice keyEnv id zeroxProviderConfig zeroxTestEndpoint =
      { zeroxTestEndpoint with marketPrice :=
          (checkWithGenericClientForMarketPrice keyEnv id zeroxProviderConfig
              zeroxTestEndpoint).marketPrice } :=
  c5_amended_market_price_frame keyEnv id zeroxProviderConfig zeroxTestEndpoint
    (Or.inr (by decide))

/-! ## C9: missing API key fails fast -/

/-- `testEndpoint` in a configuration the WIP table flags: a 1inch GyroE
endpoint. -/
def oneInchGyroEndpoint : Endpoint :=
  { testEndpoint with name := "Test GyroE", routeSolver := "1inch", solverName := "1inch" }

/-- The 1inch registry entry's transport configuration. -/
def oneInchProviderConfig : ProviderConfig :=
  { apiKeyEnvVar := "INCH_API_KEY"
    customHeaders := [("Content-Type", "application/json")]
    usePOST := false }

/-- C9 (counterexample).  The claim "for every provider with a required
API-key variable, an unset variable marks the endpoint `error` with a
message naming the variable" fails on WIP-table endpoints: the WIP check
runs BEFORE key validation, so a 1inch GyroE endpoint with `INCH_API_KEY`
unset is marked `"info"` (with the WIP message), not `"error"`. -/
theorem c9_counterexample :
    isWIPCase oneInchGyroEndpoint = true ∧
    oneInchProviderConfig.apiKeyEnvVar ≠ "" ∧
    emptyEnv oneInchProviderConfig.apiKeyEnvVar = "" ∧
    checkWithGenericClient emptyEnv 5 oneInchProviderConfig oneInchGyroEndpoint none =
      .wip (handleWIPCase 5 oneInchGyroEndpoint) ∧
    (handleWIPCase 5 oneInchGyroEndpoint).lastStatus = "info" ∧
    (handleWIPCase 5 oneInchGyroEndpoint).lastStatus ≠ "error" := by decide

/-- C9 (amended).  For every endpoint NOT in the WIP table, a required but
unset API-key variable makes the check fail fast: the endpoint is marked
`"error"` with a message naming the variable, and no HTTP request is
reached. -/
theorem c9_amended_missing_key (env : String → String) (now : Nat)
    (cfg : ProviderConfig) (e : Endpoint) (checkOptions : Option Bool)
    (hwip : isWIPCase e = false) (hvar : cfg.apiKeyEnvVar ≠ "")
    (henv : env cfg.apiKeyEnvVar = "") :
    checkWithGenericClient env now cfg e checkOptions =
      .missingKey (handleError e "error"
        (cfg.apiKeyEnvVar ++ " environment variable not set")) ∧
    (handleError e "error"
        (cfg.apiKeyEnvVar ++ " environment variable not set")).lastStatus = "error" ∧
    (∀ (e' : Endpoint) (headers : List (String × String)) (isB : Bool),
      checkWithGenericClient env now cfg e checkOptions ≠ .request e' headers isB) := by
  have h1 : checkWithGenericClient env now cfg e checkOptions =
      .missingKey (handleError e "error"
        (cfg.apiKeyEnvVar ++ " environment variable not set")) := by
    unfold checkWithGenericClient
    rw [if_neg (by simp [hwip]), if_pos hvar]
    simp only [validateAPIKey]
    rw [if_pos henv]
  refine ⟨h1, rfl, ?_⟩
  intro e' headers isB
  rw [h1]
  simp

/-- C9 (witness for the amended theorem). -/
theorem c9_amended_witness :
    checkWithGenericClient emptyEnv 7 zeroxProviderConfig zeroxTestEndpoint none =
      .missingKey (handleError zeroxTestEndpoint "error"
        "ZEROX_API_KEY environment variable not set") :=
  (c9_amended_missing_key emptyEnv 7 zeroxProviderConfig zeroxTestEndpoint none
    (by decide) (by decide) rfl).1

/-! ## Endpoint store (`internal/collector`) and the `/check/{name}`
handler (`handlers/dashboard.go`) -/

/-- `collector.UpdateEndpointByName`: under the store lock, apply `fn` to
the first endpoint with the given name; the returned flag reports whether
one was found. -/
def updateEndpointByName (store : List Endpoint) (name : String)
    (fn : Endpoint → Endpoint) : List Endpoint × Bool :=
  match store with
  | [] => ([], false)
  | ep :: rest =>
    if ep.name = name then (fn ep :: rest, true)
    else
      let p := updateEndpointByName rest name fn
      (ep :: p.1, p.2)

/-- The three ways `CheckEndpointHandler` answers. -/
inductive HttpReply where
  | methodNotAllowed : HttpReply
  | notFound : HttpReply
  | seeOtherDashboard : HttpReply
deriving Repr, DecidableEq

/-- `CheckEndpointHandler` (handlers/dashboard.go:75-96): non-POST → 405;
otherwise strip the `/check/` prefix from the path and update that endpoint
by running the check (`monitor.CheckAPI` with nil options, abstracted as
`check`); no match → 404; otherwise redirect to the dashboard with See
Other. -/
def checkEndpointHandler (store : List Endpoint) (method path : String)
    (check : Endpoint → Endpoint) : HttpReply × List Endpoint :=
  if method ≠ "POST" then (.methodNotAllowed, store)
  else
    let name := path.drop ("/check/".length)
    let p := updateEndpointByName store name check
    if ¬ p.2 then (.notFound, p.1)
    else (.seeOtherDashboard, p.1)

/-- Helper: `UpdateEndpointByName` leaves the store unchanged and reports
`false` when no endpoint carries the name. -/
theorem updateEndpointByName_not_found (store : List Endpoint) (name : String)
    (fn : Endpoint → Endpoint) (h : ∀ ep ∈ store, ep.name ≠ name) :
    updateEndpointByName store name fn = (store, false) := by
  induction store with
  | nil => rfl
  | cons ep rest ih =>
    rw [updateEndpointByName]
    rw [if_neg (h ep (List.mem_cons_self ep rest))]
    rw [ih (fun x hx => h x (List.mem_cons_of_mem ep hx))]

/-- Helper: `UpdateEndpointByName` applies `fn` to exactly the first
endpoint carrying the name. -/
theorem updateEndpointByName_found (pre : List Endpoint) (ep : Endpoint)
    (post : List Endpoint) (name : String) (fn : Endpoint → Endpoint)
    (hpre : ∀ x ∈ pre, x.name ≠ name) (hep : ep.name = name) :
    updateEndpointByName (pre ++ ep :: post) name fn =
      (pre ++ fn ep :: post, true) := by
  induction pre with
  | nil =>
    rw [List.nil_append, updateEndpointByName, if_pos hep, List.nil_append]
  | cons x rest ih =>
    rw [List.cons_append, updateEndpointByName]
    rw [if_neg (hpre x (List.mem_cons_self x rest))]
    rw [ih (fun y hy => hpre y (List.mem_cons_of_mem x hy))]
    rw [List.cons_append]

/-! ## C10: behaviour of POST /check/{name} -/

/-- C10 (confirmed).  A non-POST request gets 405 and the store is
untouched (no check runs); a POST for an unknown name gets 404 with the
store untouched; a POST for an existing name applies the check to exactly
that endpoint and answers with the See Other dashboard redirect. -/
theorem c10_check_endpoint_handler (store : List Endpoint) (method path : String)
    (check : Endpoint → Endpoint) :
    (method ≠ "POST" →
      checkEndpointHandler store method path check = (.methodNotAllowed, store)) ∧
    (method = "POST" →
      (∀ ep ∈ store, ep.name ≠ path.drop ("/check/".length)) →
      checkEndpointHandler store method path check = (.notFound, store)) ∧
    (method = "POST" →
      ∀ (pre : List Endpoint) (ep : Endpoint) (post : List Endpoint),
        store = pre ++ ep :: post →
        (∀ x ∈ pre, x.name ≠ path.drop ("/check/".length)) →
        ep.name = path.drop ("/check/".length) →
        checkEndpointHandler store method path check =
          (.seeOtherDashboard, pre ++ check ep :: post)) := by
  refine ⟨?_, ?_, ?_⟩
  · intro hm
    rw [checkEndpointHandler, if_pos hm]
  · intro hm habsent
    rw [checkEndpointHandler, if_neg (by simp [hm])]
    simp only [updateEndpointByName_not_found store _ check habsent]
    simp
  · intro hm pre ep post hstore hpre hep
    subst hstore
    rw [checkEndpointHandler, if_neg (by simp [hm])]
    simp only [updateEndpointByName_found pre ep post _ check hpre hep]
    simp

/-- C10 (witness): the three behaviours at concrete requests. -/
theorem c10_check_endpoint_handler_witness :
    checkEndpointHandler [testEndpoint] "GET" "/check/Test 80/20 Stable" id =
      (.methodNotAllowed, [testEndpoint]) ∧
    checkEndpointHandler [testEndpoint] "POST" "/check/Unknown" id =
      (.notFound, [testEndpoint]) ∧
    checkEndpointHandler [testEndpoint] "POST" "/check/Test 80/20 Stable"
        (fun ep => handleError ep "up" "Ok") =
      (.seeOtherDashboard, [handleError testEndpoint "up" "Ok"]) :=
  ⟨(c10_check_endpoint_handler [testEndpoint] "GET" "/check/Test 80/20 Stable" id).1
      (by decide),
    (c10_check_endpoint_handler [testEndpoint] "POST" "/check/Unknown" id).2.1
      rfl (by decide),
    (c10_check_endpoint_handler [testEndpoint] "POST" "/check/Test 80/20 Stable"
        (fun ep => handleError ep "up" "Ok")).2.2
      rfl [] testEndpoint [] rfl (by decide) (by decide)⟩

/-! ## C7: network I/O while the endpoint-store lock is held -/

/-- The observable events of a check cycle: taking/releasing the store
mutex (`collector.mu`) and issuing an outbound HTTP request. -/
inductive MonitorEv where
  | lock : MonitorEv
  | unlock : MonitorEv
  | network : MonitorEv
deriving Repr, DecidableEq

/-- Event trace of `collector.UpdateEndpointByName`: `mu.Lock()`, then the
update function (run only when the name matches), then the deferred
`mu.Unlock()`. -/
def updateEndpointByNameEv (found : Bool) (fnEv : List MonitorEv) : List MonitorEv :=
  .lock :: ((if found then fnEv else []) ++ [.unlock])

/-- Event trace of `client.CheckAPI`: one HTTP request
(`MakeGETRequest`/`MakePOSTRequest` → `client.Do`). -/
def clientCheckAPIEv : List MonitorEv := [.network]

/-- Event trace of `checkWithGenericClient`: WIP cases and missing API keys
return before any request; every other run reaches `client.CheckAPI`. -/
def checkWithGenericClientEv (env : String → String) (cfg : ProviderConfig)
    (e : Endpoint) : List MonitorEv :=
  if isWIPCase e then []
  else if cfg.apiKeyEnvVar ≠ "" ∧ env cfg.apiKeyEnvVar = "" then []
  else clientCheckAPIEv

/-- Event trace of `checkWithGenericClientForMarketPrice`: same guards,
then the market-price HTTP request against the scratch copy. -/
def checkWithGenericClientForMarketPriceEv (env : String → String)
    (cfg : ProviderConfig) (e : Endpoint) : List MonitorEv :=
  if isWIPCase e then []
  else if cfg.apiKeyEnvVar ≠ "" ∧ env cfg.apiKeyEnvVar = "" then []
  else [.network]

/-- Event trace of `ProviderRegistry.CheckProvider`: unregistered solvers
make no call; with nil options both sub-checks run in sequence; with
explicit options only the restricted one runs. -/
def checkProviderEv (registry : List (String × ProviderConfig))
    (env : String → String) (e : Endpoint) (optionsGiven : Bool) : List MonitorEv :=
  match registry.lookup e.routeSolver with
  | some cfg =>
    if optionsGiven then checkWithGenericClientEv env cfg e
    else checkWithGenericClientEv env cfg e ++
      checkWithGenericClientForMarketPriceEv env cfg e
  | none => []

/-- Event trace of `CheckEndpointHandler` for a POST: the whole
`monitor.CheckAPI(endpoint, nil)` call — both provider sub-checks — runs as
the update function INSIDE `UpdateEndpointByName`, i.e. between `mu.Lock()`
and `mu.Unlock()`. -/
def checkEndpointHandlerEv (registry : List (String × ProviderConfig))
    (env : String → String) (store : List Endpoint) (method path : String) :
    List MonitorEv :=
  if method ≠ "POST" then []
  else
    let name := path.drop ("/check/".length)
    match store.find? (fun ep => ep.name = name) with
    | some ep => updateEndpointByNameEv true (checkProviderEv registry env ep false)
    | none => updateEndpointByNameEv false []

/-- Event trace of one `checkAllEndpoints` scheduler cycle (monitor.go):
for each endpoint of the snapshot, `UpdateEndpointByName` wraps the whole
`CheckAPI` call — despite the comment "Do the actual API checks outside the
lock". -/
def checkAllEndpointsEv (registry : List (String × ProviderConfig))
    (env : String → String) (store : List Endpoint) : List MonitorEv :=
  (store.map (fun ep =>
    updateEndpointByNameEv (store.any (fun x => x.name = ep.name))
      (checkProviderEv registry env ep true))).flatten

/-- Does a `network` event occur at positive lock depth? -/
def networkWhileLockedAux : Nat → List MonitorEv → Bool
  | _, [] => false
  | depth, .lock :: t => networkWhileLockedAux (depth + 1) t
  | depth, .unlock :: t => networkWhileLockedAux (depth - 1) t
  | depth, .network :: t => decide (0 < depth) || networkWhileLockedAux depth t

/-- Does the trace perform network I/O while the store lock is held? -/
def networkWhileLocked (t : List MonitorEv) : Bool := networkWhileLockedAux 0 t

/-- The Paraswap registry entry's transport configuration (no API key
required, so a check always reaches the HTTP request). -/
def paraswapProviderConfig : ProviderConfig :=
  { apiKeyEnvVar := ""
    customHeaders := [("Content-Type", "application/json")]
    usePOST := false }

/-- C7 (code bug).  Evaluating the embedded traces at a registered paraswap
endpoint: the manual `/check/{name}` POST performs both provider HTTP
requests strictly between `mu.Lock()` and `mu.Unlock()` of
`UpdateEndpointByName`, and the scheduler cycle does the same — network
I/O executes while the exclusive endpoint-store lock is held, contradicting
the claim (and monitor.go's own comments). -/
theorem c7_network_io_under_store_lock :
    checkEndpointHandlerEv [("paraswap", paraswapProviderConfig)] emptyEnv
        [testEndpoint] "POST" "/check/Test 80/20 Stable" =
      [.lock, .network, .network, .unlock] ∧
    networkWhileLocked
      (checkEndpointHandlerEv [("paraswap", paraswapProviderConfig)] emptyEnv
        [testEndpoint] "POST" "/check/Test 80/20 Stable") = true ∧
    networkWhileLocked
      (checkAllEndpointsEv [("paraswap", paraswapProviderConfig)] emptyEnv
        [testEndpoint]) = true := by decide

/-! ## On-chain price query (`providers/balancer_onchain.go`) -/

/-- `SwapPathStep` (balancer_onchain.go).  Addresses are kept as strings:
`common.HexToAddress` canonicalisation is outside the model. -/
structure SwapPathStep where
  pool : String
  tokenOut : String
  isBuffer : Bool
deriving Repr, DecidableEq

/-- `SwapPathExactAmountIn` (balancer_onchain.go). -/
structure SwapPathExactAmountIn where
  tokenIn : String
  steps : List SwapPathStep
  exactAmountIn : Int
  minAmountOut : Int
deriving Repr, DecidableEq

/-- The two read-only contract invocations the verifier can ABI-encode,
with every argument the Go code packs. -/
inductive EthCall where
  | querySwapSingleTokenExactIn (router pool tokenIn tokenOut : String)
      (exactAmountIn : Int) (sender : String) (userData : List Nat)
  | querySwapExactIn (batchRouter : String) (paths : List SwapPathExactAmountIn)
      (sender : String) (userData : List Nat)
deriving Repr, DecidableEq

/-- The decoded result of an `eth_call`: a single `uint256` from the
Router, or the `(pathAmountsOut, tokensOut, amountsOut)` triple from the
BatchRouter.  (A result of the wrong shape models an ABI decoding
mismatch.) -/
inductive EthResult where
  | single (amountOut : Int)
  | batch (pathAmountsOut : List Int) (tokensOut : List String) (amountsOut : List Int)
deriving Repr, DecidableEq

/-- `routerAddresses` (balancer_onchain.go:26-35). -/
def routerAddresses : List (String × String) :=
  [("1", "0xAE563E3f8219521950555F5962419C8919758Ea2"),
   ("42161", "0xEAedc32a51c510d35ebC11088fD5fF2b47aACF2E"),
   ("10", "0xe2fa4e1d17725e72dcdAfe943Ecf45dF4B9E285b"),
   ("8453", "0x3f170631ed9821Ca51A59D996aB095162438DC10"),
   ("43114", "0xF39CA6ede9BF7820a952b52f3c94af526bAB9015"),
   ("100", "0x4eff2d77D9fFbAeFB4b141A3e494c085b3FF4Cb5"),
   ("999", "0xA8920455934Da4D853faac1f94Fe7bEf72943eF1"),
   ("9745", "0x9dA18982a33FD0c7051B19F0d7C76F2d5E7e017c")]

/-- `batchRouterAddresses` (balancer_onchain.go:39-48). -/
def batchRouterAddresses : List (String × String) :=
  [("1", "0x136f1EFcC3f8f88516B9E94110D56FDBfB1778d1"),
   ("42161", "0xaD89051bEd8d96f045E8912aE1672c6C0bF8a85E"),
   ("10", "0xaD89051bEd8d96f045E8912aE1672c6C0bF8a85E"),
   ("8453", "0x85a80afee867aDf27B50BdB7b76DA70f1E853062"),
   ("43114", "0xc9b36096f5201ea332Db35d6D195774ea0D5988f"),
   ("100", "0xe2fa4e1d17725e72dcdAfe943Ecf45dF4B9E285b"),
   ("999", "0x9dd5Db2d38b50bEF682cE532bCca5DfD203915E1"),
   ("9745", "0x85a80afee867aDf27B50BdB7b76DA70f1E853062")]

/-- The zero sender address used by both queries. -/
def zeroAddress : String := "0x0000000000000000000000000000000000000000"

/-- `querySinglePoolSwap`: look up the Router, take the single pool, parse
the raw amount with `big.Int.SetString(·, 10)`, issue
`querySwapSingleTokenExactIn(pool, tokenIn, tokenOut, exactAmountIn,
zero sender, empty userData)` and decode one unsigned integer.  The node's
`eth_call` (connection, ABI encode/decode transport) is the `chain`
oracle. -/
def querySinglePoolSwap (chain : EthCall → Except String EthResult)
    (e : Endpoint) : Except String String :=
  match routerAddresses.lookup e.network with
  | none => .error ("no Router address known for network " ++ e.network)
  | some routerAddr =>
    let pool := e.swapPathPools.headD ""
    match goParseBigInt10 e.swapAmount with
    | none => .error ("invalid swap amount: " ++ e.swapAmount)
    | some amountInt =>
      match chain (.querySwapSingleTokenExactIn routerAddr pool e.tokenIn e.tokenOut
          amountInt zeroAddress []) with
      | .error err => .error ("eth_call failed: " ++ err)
      | .ok (.single amountOut) => .ok (toString amountOut)
      | .ok (.batch _ _ _) => .error "unexpected return type"

/-- The per-step loop of `queryMultiPathSwap` building the
`SwapPathStep` array. -/
def buildSwapPathSteps (e : Endpoint) : List SwapPathStep :=
  (List.range e.swapPathPools.length).map (fun i =>
    { pool := e.swapPathPools.getD i ""
      tokenOut := e.swapPathTokenOut.getD i ""
      isBuffer := e.swapPathIsBuffer.getD i false })

/-- `queryMultiPathSwap`: look up the BatchRouter, validate the path-array
lengths, parse the raw amount, issue `querySwapExactIn` with ONE path
containing all steps (tokenIn, per-step pool/tokenOut/isBuffer,
exactAmountIn, zero minAmountOut) and return the LAST element of the
decoded amounts-out array. -/
def queryMultiPathSwap (chain : EthCall → Except String EthResult)
    (e : Endpoint) : Except String String :=
  match batchRouterAddresses.lookup e.network with
  | none => .error ("no BatchRouter address known for network " ++ e.network)
  | some batchRouterAddr =>
    if batchRouterAddr = "" then
      .error ("no BatchRouter address known for network " ++ e.network)
    else if e.swapPathPools.length ≠ e.swapPathTokenOut.length then
      .error "path pools length does not match tokenOut length"
    else if e.swapPathPools.length ≠ e.swapPathIsBuffer.length then
      .error "path pools length does not match isBuffer length"
    else
      match goParseBigInt10 e.swapAmount with
      | none => .error ("invalid swap amount: " ++ e.swapAmount)
      | some amountInt =>
        match chain (.querySwapExactIn batchRouterAddr
            [{ tokenIn := e.tokenIn, steps := buildSwapPathSteps e,
               exactAmountIn := amountInt, minAmountOut := 0 }] zeroAddress []) with
        | .error err => .error ("eth_call failed: " ++ err)
        | .ok (.single _) => .error "unexpected return type"
        | .ok (.batch _ _ amountsOut) =>
          match amountsOut.getLast? with
          | none => .error "empty amountsOut array"
          | some amountOut => .ok (toString amountOut)

/-- `QueryOnChainPrice`: resolve the RPC URL (`config.GetRPCURL`, passed as
a parameter since the config loader is an external collaborator), require
path information, and dispatch on the number of pools: exactly one →
Router single swap; two or more → BatchRouter multi-path swap. -/
def queryOnChainPrice (getRPCURL : String → String)
    (chain : EthCall → Except String EthResult) (e : Endpoint) :
    Except String String :=
  let rpcURL := getRPCURL e.network
  if rpcURL = "" then .error ("no RPC URL configured for network " ++ e.network)
  else if e.swapPathPools.length = 0 then
    .error ("no path information available for endpoint " ++ e.name)
  else if e.swapPathPools.length = 1 then querySinglePoolSwap chain e
  else queryMultiPathSwap chain e

/-! ## C3: on-chain query dispatch -/

/-- C3 (confirmed).  For an endpoint with a stored swap path and a
configured RPC URL: exactly one pool dispatches to the Router's
`querySwapSingleTokenExactIn` with (pool, tokenIn, tokenOut, exactAmountIn,
zero sender, empty userData) and returns the decoded single unsigned
integer; two or more pools dispatch to the BatchRouter's `querySwapExactIn`
with ONE path containing all steps and return the LAST element of the
decoded amounts-out array — for every behaviour of the chain. -/
theorem c3_onchain_dispatch (getRPCURL : String → String)
    (chain : EthCall → Except String EthResult) (e : Endpoint) (amt : Int)
    (hrpc : getRPCURL e.network ≠ "")
    (hamt : goParseBigInt10 e.swapAmount = some amt) :
    (∀ (pool raddr : String) (out : Int),
        e.swapPathPools = [pool] →
        routerAddresses.lookup e.network = some raddr →
        chain (.querySwapSingleTokenExactIn raddr pool e.tokenIn e.tokenOut amt
          zeroAddress []) = .ok (.single out) →
        queryOnChainPrice getRPCURL chain e = .ok (toString out)) ∧
    (∀ (baddr : String) (pa : List Int) (ts : List String)
        (amountsOut : List Int) (out : Int),
        2 ≤ e.swapPathPools.length →
        e.swapPathPools.length = e.swapPathTokenOut.length →
        e.swapPathPools.length = e.swapPathIsBuffer.length →
        batchRouterAddresses.lookup e.network = some baddr → baddr ≠ "" →
        chain (.querySwapExactIn baddr
          [{ tokenIn := e.tokenIn, steps := buildSwapPathSteps e,
             exactAmountIn := amt, minAmountOut := 0 }] zeroAddress []) =
          .ok (.batch pa ts amountsOut) →
        amountsOut.getLast? = some out →
        queryOnChainPrice getRPCURL chain e = .ok (toString out)) := by
  constructor
  · intro pool raddr out hpool hlookup hchain
    unfold queryOnChainPrice querySinglePoolSwap
    rw [if_neg hrpc, hpool]
    simp only [List.length_cons, List.length_nil, List.headD_cons]
    rw [if_neg (by omega), if_pos trivial]
    simp only [hlookup, hamt, hchain]
  · intro baddr pa ts amountsOut out hlen htok hbuf hlookup hbad hchain hlast
    unfold queryOnChainPrice queryMultiPathSwap
    rw [if_neg hrpc]
    rw [if_neg (by omega), if_neg (by omega)]
    simp only [hlookup]
    rw [if_neg hbad, if_neg (by omega), if_neg (by omega)]
    simp only [hamt, hchain, hlast]

/-- A concrete chain oracle answering both query shapes. -/
def testChain : EthCall → Except String EthResult := fun c =>
  match c with
  | .querySwapSingleTokenExactIn _ _ _ _ _ _ _ => .ok (.single 987654)
  | .querySwapExactIn _ _ _ _ => .ok (.batch [555] ["0xTokenOut"] [111, 555])

/-- A configuration in which every network has an RPC URL. -/
def testRPCURL : String → String := fun _ => "https://rpc.example"

/-- `testEndpoint` with a stored one-pool swap path. -/
def singlePathEndpoint : Endpoint :=
  { testEndpoint with swapPathPools := ["0xPool"]
                      swapPathTokenOut := ["0xTokenOut"]
                      swapPathIsBuffer := [false] }

/-- `testEndpoint` with a stored two-pool swap path. -/
def multiPathEndpoint : Endpoint :=
  { testEndpoint with swapPathPools := ["0xPool", "0xPool2"]
                      swapPathTokenOut := ["0xMid", "0xTokenOut"]
                      swapPathIsBuffer := [false, false] }

/-- C3 (witness): one pool goes through the Router query; two pools go
through the BatchRouter query and return the last amounts-out element. -/
theorem c3_onchain_dispatch_witness :
    queryOnChainPrice testRPCURL testChain singlePathEndpoint = .ok "987654" ∧
    queryOnChainPrice testRPCURL testChain multiPathEndpoint = .ok "555" :=
  ⟨(c3_onchain_dispatch testRPCURL testChain singlePathEndpoint 1000000
      (by decide) (by decide)).1 "0xPool"
      "0xAE563E3f8219521950555F5962419C8919758Ea2" 987654 rfl (by decide) rfl,
    (c3_onchain_dispatch testRPCURL testChain multiPathEndpoint 1000000
      (by decide) (by decide)).2 "0x136f1EFcC3f8f88516B9E94110D56FDBfB1778d1"
      [555] ["0xTokenOut"] [111, 555] 555 (by decide) rfl rfl (by decide)
      (by decide) rfl rfl⟩
